import Mathlib

/-!
Verification development for the CSV-to-APA-citation pipeline of this
repository (component functions of the App component in src/src/App.tsx).
The JavaScript string primitives used by the source (trim, toLowerCase,
split, includes, startsWith, number-to-string) are embedded as executable
functions over character lists, and each pipeline function is translated
from the source.
-/

namespace Citeproc

/-- Whitespace characters recognised by the JS `trim`, `split(/\s/)`-style
operations modelled here (ASCII whitespace). -/
def isSpaceChar (c : Char) : Bool :=
  c == ' ' || c == '\t' || c == '\n' || c == '\r' || c == '\x0b' || c == '\x0c'

/-- ASCII lower-casing of one character, modelling JS `toLowerCase` on the
inputs this program feeds it. -/
def lowerChar (c : Char) : Char :=
  if 'A' ≤ c && c ≤ 'Z' then Char.ofNat (c.toNat + 32) else c

/-- Model of JS `String.prototype.toLowerCase`. -/
def jsToLower (s : String) : String :=
  String.mk (s.data.map lowerChar)

/-- Model of JS `String.prototype.trim`: drop whitespace from both ends. -/
def jsTrim (s : String) : String :=
  String.mk (((s.data.dropWhile isSpaceChar).reverse.dropWhile isSpaceChar).reverse)

/-- Model of JS `String.prototype.startsWith`. -/
def jsStartsWith (s pre : String) : Bool :=
  pre.data.isPrefixOf s.data

/-- Helper for `jsIncludes`: does `pat` occur as a contiguous run in `l`? -/
def containsAux (pat : List Char) : List Char → Bool
  | [] => pat.isPrefixOf []
  | c :: cs => pat.isPrefixOf (c :: cs) || containsAux pat cs

/-- Model of JS `String.prototype.includes`. -/
def jsIncludes (s pat : String) : Bool :=
  containsAux pat.data s.data

/-- Fuel-driven splitter on a non-empty separator, modelling JS
`String.prototype.split(sep)`: every occurrence of `sep` cuts, empty
fragments are kept. -/
def splitOnFuel (sep : List Char) : Nat → List Char → List Char → List (List Char)
  | _, [], acc => [acc.reverse]
  | 0, l, acc => [acc.reverse ++ l]
  | fuel + 1, c :: cs, acc =>
    if sep.isPrefixOf (c :: cs) then
      acc.reverse :: splitOnFuel sep fuel (List.drop sep.length (c :: cs)) []
    else
      splitOnFuel sep fuel cs (c :: acc)

/-- Model of JS `String.prototype.split` with a non-empty string separator. -/
def jsSplitOnStr (s sep : String) : List String :=
  (splitOnFuel sep.data s.data.length s.data []).map String.mk

/-- Model of JS `Array.prototype.join(sep)` on an array of strings. -/
def joinSep (sep : String) : List String → String
  | [] => ""
  | [x] => x
  | x :: y :: xs => x ++ sep ++ joinSep sep (y :: xs)

/-- Decimal digit character for a value below ten. -/
def digitChar (d : Nat) : Char :=
  Char.ofNat (48 + d)

/-- Fuel-driven accumulator loop producing the decimal digits of a natural
number, most significant first. -/
def decCharsAux : Nat → Nat → List Char → List Char
  | 0, _, acc => acc
  | fuel + 1, n, acc =>
    if n < 10 then digitChar n :: acc
    else decCharsAux fuel (n / 10) (digitChar (n % 10) :: acc)

/-- Decimal digit list of a natural number. -/
def decChars (n : Nat) : List Char :=
  decCharsAux (n + 1) n []

/-- Model of the JS number-to-string conversion used by the source's
template literals, for the natural numbers this program converts. -/
def decRepr (n : Nat) : String :=
  String.mk (decChars n)

/-- JS truthiness of an optional string field: `undefined` and the empty
string are falsy, everything else truthy. -/
def jsTruthyStr : Option String → Bool
  | some s => !(s == "")
  | none => false

/-- One name entry of a CSL item: a family/given pair or a literal name. -/
inductive Author where
  | name (family given : String)
  | literal (value : String)
deriving DecidableEq, Repr

/-- The canonical structured citation record built per input row
(the `CslItem` interface of the source; `container_title` embeds the
source's `container-title` field). -/
structure CslItem where
  id : String
  type : String
  title : Option String := none
  author : Option (List Author) := none
  issued : Option (List (List Int)) := none
  container_title : Option String := none
  volume : Option String := none
  issue : Option String := none
  page : Option String := none
  DOI : Option String := none
  URL : Option String := none
  publisher : Option String := none
deriving DecidableEq, Repr

/-- A parsed CSV row: an ordered association of column names to cell
values (the `CsvRow` interface of the source). -/
abbrev CsvRow : Type := List (String × String)

/-- The terminal aggregate of a generation run (the `GenerationResult`
interface of the source). -/
structure GenerationResult where
  success : Bool
  citations : List String
  errors : List String
  warnings : List String
  csvData : List CsvRow
deriving DecidableEq, Repr

/-- First column among `keys` whose value is present and truthy (non-empty),
modelling the source's `row[k1] || row[k2] || ...` alias chains. -/
def firstTruthy (row : CsvRow) : List String → Option String
  | [] => none
  | k :: ks =>
    match List.lookup k row with
    | some v => if v == "" then firstTruthy row ks else some v
    | none => firstTruthy row ks

/-- The fixed synonym table of `mapSourceType` (source lines 112-132). -/
def typeMapping : List (String × String) :=
  [("journal article", "article-journal"),
   ("journal", "article-journal"),
   ("article", "article-journal"),
   ("news article", "article-newspaper"),
   ("newspaper", "article-newspaper"),
   ("magazine", "article-magazine"),
   ("book", "book"),
   ("book chapter", "chapter"),
   ("chapter", "chapter"),
   ("conference paper", "paper-conference"),
   ("conference", "paper-conference"),
   ("thesis", "thesis"),
   ("dissertation", "thesis"),
   ("report", "report"),
   ("webpage", "webpage"),
   ("website", "webpage"),
   ("blog post", "post-weblog"),
   ("blog", "post-weblog"),
   ("review", "review")]

/-- Translation of `mapSourceType` (source lines 109-134).  A falsy raw
value (the empty string, which is also how an absent cell reaches this
function through the `|| ''` at the call site) yields `article-journal`;
otherwise the lower-cased trimmed value is looked up in the synonym table
with fallback `webpage`. -/
def mapSourceType (rawType : String) : String :=
  if rawType == "" then "article-journal"
  else
    match List.lookup (jsTrim (jsToLower rawType)) typeMapping with
    | some t => t
    | none => "webpage"

/-- Delimiter selection of `parseAuthors` (source lines 142-150): split on
the first matching delimiter in priority order. -/
def splitAuthorList (authorStr : String) : List String :=
  if jsIncludes authorStr ";" then (jsSplitOnStr authorStr ";").map jsTrim
  else if jsIncludes authorStr " & " then (jsSplitOnStr authorStr " & ").map jsTrim
  else if jsIncludes authorStr " and " then (jsSplitOnStr authorStr " and ").map jsTrim
  else [authorStr]

/-- Per-fragment processing of `parseAuthors` (source lines 156-168).
A fragment with a comma is split on commas keeping the first two segments
(JS `split(',', 2)`); a fragment without a comma is split on single space
characters (JS `split(' ')`). -/
def parseAuthorFragment (author : String) : Option Author :=
  if jsIncludes author "," then
    match ((jsSplitOnStr author ",").take 2).map jsTrim with
    | [p0, p1] => if !(p0 == "") && !(p1 == "") then some (Author.name p0 p1) else none
    | _ => none
  else
    let parts := jsSplitOnStr author " "
    if parts.length > 1 && (parts.headD "").data.length > 1 then
      some (Author.name (parts.getLastD "") (joinSep " " parts.dropLast))
    else
      some (Author.literal author)

/-- Translation of `parseAuthors` (source lines 136-171). -/
def parseAuthors (authorCell : String) : List Author :=
  if jsTrim authorCell == "" then []
  else
    let authorStr := jsTrim authorCell
    (splitAuthorList authorStr).filterMap
      (fun a => if a == "" then none else parseAuthorFragment a)

/-- Maximal digit run at the head of a character list, with the rest. -/
def takeDigits (l : List Char) : List Char × List Char :=
  (l.takeWhile Char.isDigit, l.dropWhile Char.isDigit)

/-- Matcher for the pattern `(\d+)\s*\(\s*(\d+)\s*\)` anchored at the head
of the list. -/
def matchVolParen (l : List Char) : Option (String × String) :=
  let (d1, r1) := takeDigits l
  if d1.isEmpty then none
  else
    match r1.dropWhile isSpaceChar with
    | '(' :: r3 =>
      let (d2, r5) := takeDigits (r3.dropWhile isSpaceChar)
      if d2.isEmpty then none
      else
        match r5.dropWhile isSpaceChar with
        | ')' :: _ => some (String.mk d1, String.mk d2)
        | _ => none
    | _ => none

/-- Case-insensitive literal keyword matcher: consumes `k` (given in lower
case) from the head of the text, comparing lower-cased characters. -/
def matchCi : List Char → List Char → Option (List Char)
  | [], l => some l
  | _ :: _, [] => none
  | k :: ks, c :: cs => if lowerChar c == k then matchCi ks cs else none

/-- Consume one optional dot, modelling the regex piece `\.?`. -/
def skipDot : List Char → List Char
  | '.' :: rest => rest
  | l => l

/-- Matcher for the patterns `vol\.?\s*(\d+)\s*no\.?\s*(\d+)` and
`v\.?\s*(\d+)\s*n\.?\s*(\d+)` (case-insensitive), anchored at the head;
`k1`/`k2` are the two lower-case keywords. -/
def matchKeyworded (k1 k2 : List Char) (l : List Char) : Option (String × String) :=
  match matchCi k1 l with
  | none => none
  | some r1 =>
    let (d1, r3) := takeDigits ((skipDot r1).dropWhile isSpaceChar)
    if d1.isEmpty then none
    else
      match matchCi k2 (r3.dropWhile isSpaceChar) with
      | none => none
      | some r5 =>
        let (d2, _) := takeDigits ((skipDot r5).dropWhile isSpaceChar)
        if d2.isEmpty then none else some (String.mk d1, String.mk d2)

/-- Dash characters of the pattern `(\d+)\s*[-–—]\s*(\d+)`. -/
def isDashChar (c : Char) : Bool :=
  c == '-' || c == '–' || c == '—'

/-- Matcher for the pattern `(\d+)\s*[-–—]\s*(\d+)` anchored at the head. -/
def matchDash (l : List Char) : Option (String × String) :=
  let (d1, r1) := takeDigits l
  if d1.isEmpty then none
  else
    match r1.dropWhile isSpaceChar with
    | c :: r3 =>
      if isDashChar c then
        let (d2, _) := takeDigits (r3.dropWhile isSpaceChar)
        if d2.isEmpty then none else some (String.mk d1, String.mk d2)
      else none
    | [] => none

/-- Leftmost-match search: try the anchored matcher at every start
position from left to right, as the JS regex engine does for an
unanchored pattern. -/
def searchMatch (m : List Char → Option (String × String)) : List Char → Option (String × String)
  | [] => none
  | c :: cs =>
    match m (c :: cs) with
    | some r => some r
    | none => searchMatch m cs

/-- The four volume/issue patterns of `parseVolumeIssue` in source order
(source lines 176-181). -/
def volIssPatterns : List (List Char → Option (String × String)) :=
  [matchVolParen, matchKeyworded ['v', 'o', 'l'] ['n', 'o'],
   matchKeyworded ['v'] ['n'], matchDash]

/-- Try each pattern in order, returning the first successful match. -/
def tryPatterns : List (List Char → Option (String × String)) → List Char → Option (String × String)
  | [], _ => none
  | p :: ps, t =>
    match searchMatch p t with
    | some r => some r
    | none => tryPatterns ps t

/-- Result shape of `parseVolumeIssue`. -/
structure VolIss where
  volume : Option String
  issue : Option String
deriving DecidableEq, Repr

/-- Translation of `parseVolumeIssue` (source lines 173-188). -/
def parseVolumeIssue (cell : String) : VolIss :=
  if cell == "" then { volume := none, issue := none }
  else
    let text := jsTrim cell
    match tryPatterns volIssPatterns text.data with
    | some (v, i) => { volume := some v, issue := some i }
    | none =>
      if !(text == "") && text.data.all Char.isDigit then
        { volume := some text, issue := none }
      else { volume := none, issue := none }

/-- Leading decimal digits of a character list as a number, `none` when
there is no leading digit (the NaN case of JS `parseInt`). -/
def digitsToNat? (l : List Char) : Option Nat :=
  let ds := l.takeWhile Char.isDigit
  if ds.isEmpty then none
  else some (ds.foldl (fun a c => a * 10 + (c.toNat - 48)) 0)

/-- Model of JS `parseInt(s, 10)`: skip leading whitespace, read an
optional sign and then leading decimal digits. -/
def jsParseInt (s : String) : Option Int :=
  match s.data.dropWhile isSpaceChar with
  | '-' :: rest => (digitsToNat? rest).map (fun n => -(n : Int))
  | '+' :: rest => (digitsToNat? rest).map (fun n => (n : Int))
  | l => (digitsToNat? l).map (fun n => (n : Int))

/-- Strip the anchored DOI-resolver pattern `^https?:\/\/doi\.org\/`
(source line 236); when the value does not start with the resolver the
replace is a no-op. -/
def stripDoiResolver (s : String) : String :=
  if jsStartsWith s "https://doi.org/" then String.mk (s.data.drop 16)
  else if jsStartsWith s "http://doi.org/" then String.mk (s.data.drop 15)
  else s

/-- DOI/URL disambiguation of one trimmed identifier value (source lines
234-243): the returned pair is (DOI, URL). -/
def doiUrlFromIdentifier (d : String) : Option String × Option String :=
  if jsStartsWith d "http" then
    if jsIncludes d "doi.org/" then (some (stripDoiResolver d), none)
    else (none, some d)
  else if jsStartsWith d "10." then (some d, none)
  else (none, none)

/-- The (DOI, URL) pair produced from the identifier column chain
`row['DOI'] || row['DOI/URL'] || row['doi']` (source lines 231-244). -/
def identifierPair (row : CsvRow) : Option String × Option String :=
  match firstTruthy row ["DOI", "DOI/URL", "doi"] with
  | some v => doiUrlFromIdentifier (jsTrim v)
  | none => (none, none)

/-- The stable identifier assigned to the row at 0-based index `n - 1`
(the source's template `item_${index + 1}` with `n = index + 1`). -/
def itemId (n : Nat) : String :=
  "item_" ++ decRepr n

/-- Translation of `createCslItem` (source lines 190-259). -/
def createCslItem (row : CsvRow) (index : Nat) : CslItem :=
  let authors := parseAuthors ((firstTruthy row ["Author(s)", "Authors", "Author", "author"]).getD "")
  let volIss := parseVolumeIssue ((firstTruthy row ["Volume", "Volume-Issue", "volume"]).getD "")
  let doiPair := identifierPair row
  { id := itemId (index + 1)
    type := mapSourceType ((firstTruthy row ["Source Type", "type"]).getD "")
    title := (firstTruthy row ["Title", "title"]).map jsTrim
    author := if authors.isEmpty then none else some authors
    issued :=
      match firstTruthy row ["Year", "Publication Year", "Date", "year"] with
      | some y =>
        match jsParseInt y with
        | some n => some [[n]]
        | none => none
      | none => none
    container_title :=
      (firstTruthy row ["Journal", "Publication", "Container Title", "Source", "container-title"]).map jsTrim
    volume := if jsTruthyStr volIss.volume then volIss.volume else none
    issue :=
      if jsTruthyStr volIss.issue then volIss.issue
      else (firstTruthy row ["Issue", "issue"]).map jsTrim
    page := (firstTruthy row ["Pages", "Page Range", "Page", "page"]).map jsTrim
    DOI := doiPair.1
    URL :=
      match firstTruthy row ["URL", "url"] with
      | some v =>
        if !jsTruthyStr doiPair.1 && !jsTruthyStr doiPair.2 && jsStartsWith (jsTrim v) "http" then
          some (jsTrim v)
        else doiPair.2
      | none => doiPair.2
    publisher := (firstTruthy row ["Publisher", "publisher"]).map jsTrim }

/-- Item construction over the row list starting at index `n`, modelling
`jsonData.map((row, index) => createCslItem(row, index))`. -/
def buildItemsFrom : Nat → List CsvRow → List CslItem
  | _, [] => []
  | n, r :: rs => createCslItem r n :: buildItemsFrom (n + 1) rs

/-- All CSL items built from the parsed rows (source line 481). -/
def buildItems (rows : List CsvRow) : List CslItem :=
  buildItemsFrom 0 rows

/-- The validation error strings produced for the item shown at 1-based
position `pos` (source lines 266-274). -/
def itemErrors (pos : Nat) (item : CslItem) : List String :=
  (if !jsTruthyStr item.title && item.author.isNone then
    ["Item " ++ decRepr pos ++ ": Missing both title and author"]
  else []) ++
  (if item.type == "article-journal" && !jsTruthyStr item.container_title then
    ["Item " ++ decRepr pos ++ ": Journal articles require a journal name"]
  else [])

/-- Rejection predicate of the validator: true exactly when `itemErrors`
is non-empty for the item. -/
def invalidCslItem (item : CslItem) : Bool :=
  (!jsTruthyStr item.title && item.author.isNone) ||
  (item.type == "article-journal" && !jsTruthyStr item.container_title)

/-- Validation loop over the items starting at 0-based index `n`,
modelling the `items.forEach((item, index) => ...)` accumulation of
`validateCslItems`. -/
def validateFrom : Nat → List CslItem → List CslItem × List String
  | _, [] => ([], [])
  | n, item :: rest =>
    if itemErrors (n + 1) item = [] then
      (item :: (validateFrom (n + 1) rest).1, (validateFrom (n + 1) rest).2)
    else
      ((validateFrom (n + 1) rest).1, itemErrors (n + 1) item ++ (validateFrom (n + 1) rest).2)

/-- Translation of `validateCslItems` (source lines 261-284): the pair of
the valid subsequence and the error list. -/
def validateCslItems (items : List CslItem) : List CslItem × List String :=
  validateFrom 0 items

/-- Model of the JS object spread `{ ...row, key: v }`: overwrite the
value in place when the key exists, otherwise append the new column. -/
def jsSet (row : CsvRow) (k v : String) : CsvRow :=
  if (List.lookup k row).isSome then
    row.map (fun p => if p.1 == k then (k, v) else p)
  else row ++ [(k, v)]

/-- The citation text attached to the row at 0-based index `index`
(body of the `finalCsvData` map, source lines 500-509). -/
def citationForIndex (cslItems validItems : List CslItem) (citations : List String)
    (index : Nat) : String :=
  let correspondingCslItem := cslItems.find? (fun csl => csl.id == itemId (index + 1))
  let validIndex :=
    match correspondingCslItem with
    | some c => validItems.findIdx? (fun validItem => validItem.id == c.id)
    | none => none
  match validIndex with
  | some vi =>
    match citations.get? vi with
    | some c => if c == "" then "Error: Could not generate citation." else c
    | none => "Error: Could not generate citation."
  | none => "Skipped due to validation errors."

/-- Row augmentation loop starting at index `n`, modelling the
`jsonData.map((row, index) => ...)` of `finalCsvData`. -/
def finalCsvDataFrom (cslItems validItems : List CslItem) (citations : List String) :
    Nat → List CsvRow → List CsvRow
  | _, [] => []
  | n, row :: rest =>
    jsSet row "APA 7 Citation" (citationForIndex cslItems validItems citations n) ::
      finalCsvDataFrom cslItems validItems citations (n + 1) rest

/-- Translation of the `finalCsvData` construction (source lines 500-510). -/
def finalCsvData (jsonData : List CsvRow) (cslItems validItems : List CslItem)
    (citations : List String) : List CsvRow :=
  finalCsvDataFrom cslItems validItems citations 0 jsonData

/-- Warning list of a completed run (source lines 494-498); the count in
the message is the source's self-difference `cslItems.length - cslItems.length`. -/
def generationWarnings (cslItems validItems : List CslItem) : List String :=
  if validItems.length < cslItems.length then
    [decRepr (cslItems.length - cslItems.length) ++ " items were skipped due to validation errors"]
  else []

/-- The error message raised when validation accepts no item (source
line 487). -/
def noValidItemsMsg : String :=
  "No valid citation items found. Please check your data format."

/-- Translation of the post-parse part of `handleGeneration` (source
lines 480-537): build items, validate, fail when no item is valid, and
otherwise render (through the supplied engine adapter `render`, returning
citations and rendering errors) and assemble the result.  The catch block
turns the no-valid-items throw into the failed result object. -/
def handleGeneration (jsonData : List CsvRow)
    (render : List CslItem → List String × List String) : GenerationResult :=
  let cslItems := buildItems jsonData
  let validItems := (validateCslItems cslItems).1
  if validItems.length = 0 then
    { success := false, citations := [], errors := [noValidItemsMsg],
      warnings := [], csvData := [] }
  else
    let citations := (render validItems).1
    { success := decide (0 < citations.length)
      citations := citations
      errors := (validateCslItems cslItems).2 ++ (render validItems).2
      warnings := generationWarnings cslItems validItems
      csvData := finalCsvData jsonData cslItems validItems citations }

/-- The value of the appended citation column of the output row at index
`i`, when that row exists. -/
def appendedCitation (jsonData : List CsvRow) (cslItems validItems : List CslItem)
    (citations : List String) (i : Nat) : Option String :=
  ((finalCsvData jsonData cslItems validItems citations).get? i).bind
    (fun r => List.lookup "APA 7 Citation" r)

/-- Fuel irrelevance for the decimal digit loop: any fuel above the value
produces the same digits. -/
theorem decCharsAux_congr : ∀ n f g acc, n < f → n < g →
    decCharsAux f n acc = decCharsAux g n acc := by
  intro n
  induction n using Nat.strong_induction_on with
  | _ n ih =>
    intro f g acc hf hg
    cases f with
    | zero => omega
    | succ f =>
      cases g with
      | zero => omega
      | succ g =>
        by_cases h : n < 10
        · simp [decCharsAux, h]
        · have hd : n / 10 < n := Nat.div_lt_self (by omega) (by omega)
          simp only [decCharsAux, h, if_false]
          exact ih (n / 10) hd f g _ (by omega) (by omega)

/-- The accumulator of the decimal digit loop is a pure suffix. -/
theorem decCharsAux_append : ∀ f n acc,
    decCharsAux f n acc = decCharsAux f n [] ++ acc := by
  intro f
  induction f with
  | zero => intro n acc; simp [decCharsAux]
  | succ f ih =>
    intro n acc
    by_cases h : n < 10
    · simp [decCharsAux, h]
    · simp only [decCharsAux, h, if_false]
      rw [ih (n / 10) (digitChar (n % 10) :: acc), ih (n / 10) [digitChar (n % 10)]]
      simp

/-- Digits of a one-digit number. -/
theorem decChars_lt (n : Nat) (h : n < 10) : decChars n = [digitChar n] := by
  simp [decChars, decCharsAux, h]

/-- Digit recursion for numbers of at least two digits. -/
theorem decChars_ge (n : Nat) (h : 10 ≤ n) :
    decChars n = decChars (n / 10) ++ [digitChar (n % 10)] := by
  have h10 : ¬ n < 10 := by omega
  have hd : n / 10 < n := Nat.div_lt_self (by omega) (by omega)
  show decCharsAux (n + 1) n [] = decCharsAux (n / 10 + 1) (n / 10) [] ++ [digitChar (n % 10)]
  rw [show decCharsAux (n + 1) n [] = decCharsAux n (n / 10) [digitChar (n % 10)] from by
    simp [decCharsAux, h10]]
  rw [decCharsAux_append n (n / 10) [digitChar (n % 10)]]
  rw [decCharsAux_congr (n / 10) n (n / 10 + 1) [] (by omega) (by omega)]

/-- A decimal representation is never empty. -/
theorem decChars_ne_nil (n : Nat) : decChars n ≠ [] := by
  by_cases h : n < 10
  · rw [decChars_lt n h]; simp
  · rw [decChars_ge n (by omega)]; simp

/-- Digit characters of distinct digit values are distinct. -/
theorem digitChar_injOn : ∀ a, a < 10 → ∀ b, b < 10 → digitChar a = digitChar b → a = b := by
  decide

/-- Decimal digit lists identify the number. -/
theorem decChars_inj : ∀ m n, decChars m = decChars n → m = n := by
  intro m
  induction m using Nat.strong_induction_on with
  | _ m ih =>
    intro n h
    by_cases hm : m < 10 <;> by_cases hn : n < 10
    · rw [decChars_lt m hm, decChars_lt n hn] at h
      exact digitChar_injOn m hm n hn (by injection h)
    · exfalso
      rw [decChars_lt m hm, decChars_ge n (by omega)] at h
      have hl := congrArg List.length h
      simp at hl
      exact decChars_ne_nil (n / 10) hl
    · exfalso
      rw [decChars_ge m (by omega), decChars_lt n hn] at h
      have hl := congrArg List.length h
      simp at hl
      exact decChars_ne_nil (m / 10) hl
    · rw [decChars_ge m (by omega), decChars_ge n (by omega)] at h
      obtain ⟨h3, h4⟩ := List.append_inj' h (by simp)
      have hd : m / 10 < m := Nat.div_lt_self (by omega) (by omega)
      have hmn : m / 10 = n / 10 := ih (m / 10) hd (n / 10) h3
      have hmod : m % 10 = n % 10 :=
        digitChar_injOn (m % 10) (Nat.mod_lt _ (by omega)) (n % 10) (Nat.mod_lt _ (by omega))
          (by injection h4)
      omega

/-- The decimal string representation identifies the number. -/
theorem decRepr_inj {m n : Nat} (h : decRepr m = decRepr n) : m = n :=
  decChars_inj m n (by simpa [decRepr] using congrArg String.data h)

/-- The join keys `item_<n>` identify the position `n`. -/
theorem itemId_inj {a b : Nat} (h : itemId a = itemId b) : a = b := by
  have h2 := congrArg String.data h
  simp only [itemId, decRepr, String.data_append] at h2
  exact decChars_inj _ _ (List.append_cancel_left h2)

/-- Overwriting an existing key in place leaves the new value at the key. -/
theorem lookup_map_overwrite (k v : String) : ∀ (row : CsvRow),
    (List.lookup k row).isSome →
    List.lookup k (row.map (fun p => if p.1 == k then (k, v) else p)) = some v := by
  intro row
  induction row with
  | nil => intro h; simp [List.lookup] at h
  | cons p rest ih =>
    obtain ⟨k1, v1⟩ := p
    intro h
    simp only [List.map_cons]
    cases hk : (k1 == k) with
    | true =>
      simp only [eq_self_iff_true, if_true]
      rw [List.lookup_cons, beq_self_eq_true]
    | false =>
      have hk2 : (k == k1) = false :=
        beq_eq_false_iff_ne.mpr (Ne.symm (beq_eq_false_iff_ne.mp hk))
      rw [List.lookup_cons, hk2] at h
      simp only [Bool.false_eq_true, if_false]
      rw [List.lookup_cons, hk2]
      exact ih h

/-- Appending a fresh key makes it findable. -/
theorem lookup_append_right (k v : String) : ∀ (row : CsvRow),
    List.lookup k row = none →
    List.lookup k (row ++ [(k, v)]) = some v := by
  intro row
  induction row with
  | nil => intro _; simp [List.lookup]
  | cons p rest ih =>
    obtain ⟨k1, v1⟩ := p
    intro h
    by_cases hk : k = k1
    · subst hk
      rw [List.lookup_cons, beq_self_eq_true] at h
      exact Option.noConfusion h
    · have hk2 : (k == k1) = false := beq_eq_false_iff_ne.mpr hk
      rw [List.lookup_cons, hk2] at h
      rw [List.cons_append, List.lookup_cons, hk2]
      exact ih h

/-- The appended citation column of `jsSet` always reads back the
attached value. -/
theorem lookup_jsSet (row : CsvRow) (k v : String) :
    List.lookup k (jsSet row k v) = some v := by
  unfold jsSet
  by_cases h : (List.lookup k row).isSome
  · simp only [h, if_true]
    exact lookup_map_overwrite k v row h
  · simp only [h, if_false]
    exact lookup_append_right k v row (Option.not_isSome_iff_eq_none.mp h)

/-- With a fresh key, the spread appends exactly one new column. -/
theorem jsSet_of_fresh (row : CsvRow) (k v : String) (h : List.lookup k row = none) :
    jsSet row k v = row ++ [(k, v)] := by
  unfold jsSet
  simp [h]

/-- With a key already present, the spread overwrites in place: same
columns in the same order, no column appended. -/
theorem jsSet_of_mem (row : CsvRow) (k v w : String) (h : List.lookup k row = some w) :
    jsSet row k v = row.map (fun p => if p.1 == k then (k, v) else p) := by
  unfold jsSet
  rw [if_pos (by simp [h])]

/-- Element lookup into the built item list. -/
theorem buildItemsFrom_get? : ∀ (rows : List CsvRow) (n i : Nat),
    (buildItemsFrom n rows).get? i = (rows.get? i).map (fun r => createCslItem r (n + i)) := by
  intro rows
  induction rows with
  | nil => intro n i; simp [buildItemsFrom]
  | cons r rs ih =>
    intro n i
    cases i with
    | zero => simp [buildItemsFrom]
    | succ i =>
      simp only [buildItemsFrom, List.get?_cons_succ]
      rw [show n + (i + 1) = (n + 1) + i from by omega]
      exact ih (n + 1) i

/-- The identifier of the built item at offset `i` is `item_<n+i+1>`. -/
theorem buildItemsFrom_id (rows : List CsvRow) (n i : Nat) (it : CslItem)
    (h : (buildItemsFrom n rows).get? i = some it) : it.id = itemId (n + i + 1) := by
  rw [buildItemsFrom_get?] at h
  cases hr : rows.get? i with
  | none => rw [hr] at h; simp at h
  | some r =>
    rw [hr] at h
    simp at h
    rw [← h]
    rfl

/-- Searching the built item list for `item_<n+i+1>` by identifier
returns exactly the item built at offset `i`. -/
theorem buildItemsFrom_find? : ∀ (rows : List CsvRow) (n i : Nat) (it : CslItem),
    (buildItemsFrom n rows).get? i = some it →
    (buildItemsFrom n rows).find? (fun c => c.id == itemId (n + i + 1)) = some it := by
  intro rows
  induction rows with
  | nil => intro n i it h; simp [buildItemsFrom] at h
  | cons r rs ih =>
    intro n i it h
    cases i with
    | zero =>
      simp only [buildItemsFrom, List.get?_cons_zero, Option.some.injEq] at h
      have hpos : ((createCslItem r n).id == itemId (n + 0 + 1)) = true := by
        have hid : (createCslItem r n).id = itemId (n + 1) := rfl
        simp [hid]
      simp only [buildItemsFrom, List.find?]
      rw [hpos]
      simp [h]
    | succ i =>
      have hneg : ((createCslItem r n).id == itemId (n + (i + 1) + 1)) = false := by
        apply beq_eq_false_iff_ne.mpr
        have hid : (createCslItem r n).id = itemId (n + 1) := rfl
        rw [hid]
        intro hEq
        have := itemId_inj hEq
        omega
      have h2 : (buildItemsFrom (n + 1) rs).get? i = some it := by
        simpa [buildItemsFrom, List.get?_cons_succ] using h
      have h3 := ih (n + 1) i it h2
      simp only [buildItemsFrom, List.find?]
      rw [hneg]
      simp only [cond_false]
      rw [show n + (i + 1) + 1 = (n + 1) + i + 1 from by omega]
      exact h3

/-- Emptiness of the per-item error list coincides with the rejection
predicate, at every reported position. -/
theorem itemErrors_eq_nil_iff (pos : Nat) (it : CslItem) :
    itemErrors pos it = [] ↔ invalidCslItem it = false := by
  unfold itemErrors invalidCslItem
  cases h1 : (!jsTruthyStr it.title && it.author.isNone) <;>
    cases h2 : (it.type == "article-journal" && !jsTruthyStr it.container_title) <;>
    simp

/-- The valid subsequence of the validator loop is the order-preserving
filter by the rejection predicate. -/
theorem validateFrom_fst : ∀ (items : List CslItem) (n : Nat),
    (validateFrom n items).1 = items.filter (fun it => !invalidCslItem it) := by
  intro items
  induction items with
  | nil => intro n; rfl
  | cons it rest ih =>
    intro n
    by_cases h : itemErrors (n + 1) it = []
    · have hinv : invalidCslItem it = false := (itemErrors_eq_nil_iff _ _).mp h
      rw [validateFrom, if_pos h, List.filter_cons]
      simp only [hinv, Bool.not_false, if_true]
      rw [ih (n + 1)]
    · have hinv : invalidCslItem it = true := by
        cases hi : invalidCslItem it with
        | false => exact absurd ((itemErrors_eq_nil_iff _ _).mpr hi) h
        | true => rfl
      rw [validateFrom, if_neg h, List.filter_cons]
      simp only [hinv, Bool.not_true, if_false]
      exact ih (n + 1)

/-- The error output of the validator loop concatenates the per-item
error lists in original order, positions counted from `n + 1`. -/
theorem validateFrom_snd : ∀ (items : List CslItem) (n : Nat),
    (validateFrom n items).2 =
      (List.enumFrom (n + 1) items).flatMap (fun p => itemErrors p.1 p.2) := by
  intro items
  induction items with
  | nil => intro n; rfl
  | cons it rest ih =>
    intro n
    rw [List.enumFrom_cons, List.flatMap_cons]
    by_cases h : itemErrors (n + 1) it = []
    · rw [validateFrom, if_pos h, h, List.nil_append]
      exact ih (n + 1)
    · rw [validateFrom, if_neg h]
      rw [ih (n + 1)]

/-- Membership in the valid subsequence. -/
theorem mem_validateFrom_fst {items : List CslItem} {n : Nat} {v : CslItem} :
    v ∈ (validateFrom n items).1 ↔ v ∈ items ∧ invalidCslItem v = false := by
  rw [validateFrom_fst]
  simp [List.mem_filter]

/-- The augmented row list has one row per input row. -/
theorem finalCsvDataFrom_length : ∀ (rows : List CsvRow) (cslItems validItems : List CslItem)
    (citations : List String) (n : Nat),
    (finalCsvDataFrom cslItems validItems citations n rows).length = rows.length := by
  intro rows
  induction rows with
  | nil => intro _ _ _ _; rfl
  | cons r rs ih =>
    intro cslItems validItems citations n
    simp [finalCsvDataFrom, ih]

/-- Element lookup into the augmented row list. -/
theorem finalCsvDataFrom_get? : ∀ (rows : List CsvRow) (cslItems validItems : List CslItem)
    (citations : List String) (n i : Nat),
    (finalCsvDataFrom cslItems validItems citations n rows).get? i =
      (rows.get? i).map
        (fun row => jsSet row "APA 7 Citation" (citationForIndex cslItems validItems citations (n + i))) := by
  intro rows
  induction rows with
  | nil => intro _ _ _ n i; simp [finalCsvDataFrom]
  | cons r rs ih =>
    intro cslItems validItems citations n i
    cases i with
    | zero => simp [finalCsvDataFrom]
    | succ i =>
      simp only [finalCsvDataFrom, List.get?_cons_succ]
      rw [show n + (i + 1) = (n + 1) + i from by omega]
      exact ih cslItems validItems citations (n + 1) i

/-- Keys of the type synonym table are distinct. -/
theorem typeMapping_keys_nodup : (typeMapping.map Prod.fst).Nodup := by
  decide

/-- Lookup finds a pair that is a member, when keys are distinct. -/
theorem lookup_eq_some_of_mem_nodup {l : List (String × String)} {k t : String}
    (hnd : (l.map Prod.fst).Nodup) (hmem : (k, t) ∈ l) : List.lookup k l = some t := by
  induction l with
  | nil => simp at hmem
  | cons p rest ih =>
    obtain ⟨k1, v1⟩ := p
    simp only [List.map_cons, List.nodup_cons] at hnd
    rcases List.mem_cons.mp hmem with h | h
    · obtain ⟨hk, hv⟩ := Prod.mk.inj h
      subst hk
      subst hv
      rw [List.lookup_cons, beq_self_eq_true]
    · have hne : (k == k1) = false := by
        apply beq_eq_false_iff_ne.mpr
        intro hEq
        subst hEq
        exact hnd.1 (List.mem_map_of_mem Prod.fst h)
      rw [List.lookup_cons, hne]
      exact ih hnd.2 h

/-- Lookup misses a key that heads no pair of the table. -/
theorem lookup_eq_none_of_not_mem {l : List (String × String)} {k : String}
    (h : ∀ t, (k, t) ∉ l) : List.lookup k l = none := by
  induction l with
  | nil => rfl
  | cons p rest ih =>
    obtain ⟨k1, v1⟩ := p
    have hne : (k == k1) = false := by
      apply beq_eq_false_iff_ne.mpr
      intro hEq
      exact h v1 (by simp [hEq])
    rw [List.lookup_cons, hne]
    exact ih (fun t ht => h t (by simp [ht]))

/-- On a run that passes validation, `handleGeneration` takes the
rendering branch. -/
theorem handleGeneration_pos (rows : List CsvRow)
    (render : List CslItem → List String × List String)
    (h : ¬ (validateCslItems (buildItems rows)).1.length = 0) :
    handleGeneration rows render =
      { success := decide (0 < (render (validateCslItems (buildItems rows)).1).1.length)
        citations := (render (validateCslItems (buildItems rows)).1).1
        errors := (validateCslItems (buildItems rows)).2 ++
          (render (validateCslItems (buildItems rows)).1).2
        warnings := generationWarnings (buildItems rows) (validateCslItems (buildItems rows)).1
        csvData := finalCsvData rows (buildItems rows) (validateCslItems (buildItems rows)).1
          (render (validateCslItems (buildItems rows)).1).1 } := by
  simp only [handleGeneration]
  rw [if_neg h]

/-- On a run with no valid items, `handleGeneration` produces the failed
result object. -/
theorem handleGeneration_none (rows : List CsvRow)
    (render : List CslItem → List String × List String)
    (h : (validateCslItems (buildItems rows)).1.length = 0) :
    handleGeneration rows render =
      { success := false, citations := [], errors := [noValidItemsMsg],
        warnings := [], csvData := [] } := by
  simp only [handleGeneration]
  rw [if_pos h]

/-- Reading the citation slot of the rendered-citation list when the
entry exists and is non-empty. -/
theorem citation_pick (citations : List String) (j : Nat) (c : String)
    (hc : citations.get? j = some c) (hcne : c ≠ "") :
    (match citations.get? j with
     | some c => if c == "" then "Error: Could not generate citation." else c
     | none => "Error: Could not generate citation.") = c := by
  rw [hc]
  simp [hcne]

/-- Claim C5: `mapSourceType` lower-cases and trims the raw value and looks it
up in the fixed synonym table; a non-empty value absent from the table
maps to `webpage`, while the empty value (which is also how an absent
cell reaches the function through the `|| ''` at its call site) maps to
`article-journal`; in particular "Journal Article" maps to
`article-journal`, "" maps to `article-journal`, and "zzz" maps to
`webpage`. -/
theorem mapSourceType_spec :
    mapSourceType "" = "article-journal"
    ∧ mapSourceType "Journal Article" = "article-journal"
    ∧ mapSourceType "zzz" = "webpage"
    ∧ (∀ s t : String, s ≠ "" → (jsTrim (jsToLower s), t) ∈ typeMapping → mapSourceType s = t)
    ∧ (∀ s : String, s ≠ "" → (∀ t, (jsTrim (jsToLower s), t) ∉ typeMapping) →
        mapSourceType s = "webpage") := by
  refine ⟨by decide, by decide, by decide, ?_, ?_⟩
  · intro s t hs hmem
    unfold mapSourceType
    rw [if_neg (by simpa using hs)]
    rw [lookup_eq_some_of_mem_nodup typeMapping_keys_nodup hmem]
  · intro s hs hnm
    unfold mapSourceType
    rw [if_neg (by simpa using hs)]
    rw [lookup_eq_none_of_not_mem hnm]

/-- Claim C5 witness: the table branch of `mapSourceType_spec` applied to the
concrete raw value "BOOK". -/
theorem mapSourceType_spec_witness : mapSourceType "BOOK" = "book" :=
  mapSourceType_spec.2.2.2.1 "BOOK" "book" (by decide) (by decide)

/-- Claim C8: `parseVolumeIssue` tries the four patterns in source order with
the first successful match returning both captured numbers, falls back to
a purely-digits volume with no issue, and otherwise yields neither field;
on the spec's examples "12(3)", "vol. 5 no. 2", "45" and "abc" it returns
volume 12 / issue 3, volume 5 / issue 2, volume 45 / no issue, and
neither, respectively. -/
theorem parseVolumeIssue_spec :
    parseVolumeIssue "12(3)" = { volume := some "12", issue := some "3" }
    ∧ parseVolumeIssue "vol. 5 no. 2" = { volume := some "5", issue := some "2" }
    ∧ parseVolumeIssue "45" = { volume := some "45", issue := none }
    ∧ parseVolumeIssue "abc" = { volume := none, issue := none }
    ∧ (∀ s v i, searchMatch matchVolParen (jsTrim s).data = some (v, i) →
        parseVolumeIssue s = { volume := some v, issue := some i })
    ∧ (∀ s, s ≠ "" → tryPatterns volIssPatterns (jsTrim s).data = none →
        jsTrim s ≠ "" → (jsTrim s).data.all Char.isDigit = true →
        parseVolumeIssue s = { volume := some (jsTrim s), issue := none })
    ∧ (∀ s, s ≠ "" → tryPatterns volIssPatterns (jsTrim s).data = none →
        ¬(jsTrim s ≠ "" ∧ (jsTrim s).data.all Char.isDigit = true) →
        parseVolumeIssue s = { volume := none, issue := none }) := by
  refine ⟨by decide, by decide, by decide, by decide, ?_, ?_, ?_⟩
  · intro s v i h
    by_cases hs : s = ""
    · subst hs
      have hnone : searchMatch matchVolParen (jsTrim "").data = none := rfl
      rw [hnone] at h
      exact Option.noConfusion h
    · simp only [parseVolumeIssue]
      rw [if_neg (by simpa using hs)]
      have ht : tryPatterns volIssPatterns (jsTrim s).data = some (v, i) := by
        show (match searchMatch matchVolParen (jsTrim s).data with
          | some r => some r
          | none => tryPatterns [matchKeyworded ['v', 'o', 'l'] ['n', 'o'],
              matchKeyworded ['v'] ['n'], matchDash] (jsTrim s).data) = some (v, i)
        rw [h]
      rw [ht]
  · intro s hs htry hnz hdig
    simp only [parseVolumeIssue]
    rw [if_neg (by simpa using hs)]
    rw [htry]
    have hcond : (!(jsTrim s == "") && (jsTrim s).data.all Char.isDigit) = true := by
      simp [hnz, hdig]
    rw [if_pos hcond]
  · intro s hs htry hnd
    simp only [parseVolumeIssue]
    rw [if_neg (by simpa using hs)]
    rw [htry]
    have hcond : (!(jsTrim s == "") && (jsTrim s).data.all Char.isDigit) = false := by
      cases hz : (jsTrim s == "") with
      | true => simp [hz]
      | false =>
        cases hd : (jsTrim s).data.all Char.isDigit with
        | false => simp [hz, hd]
        | true => exact absurd ⟨beq_eq_false_iff_ne.mp hz, hd⟩ hnd
    rw [if_neg (by simp [hcond])]

/-- Claim C8 witness: the first-pattern branch of `parseVolumeIssue_spec`
applied to "12(3)". -/
theorem parseVolumeIssue_spec_witness :
    parseVolumeIssue "12(3)" = { volume := some "12", issue := some "3" } :=
  parseVolumeIssue_spec.2.2.2.2.1 "12(3)" "12" "3" (by decide)

/-- Claim C10: `parseVolumeIssue` never yields an issue without a volume: every
pattern match fills both fields and the digits fallback fills only the
volume. -/
theorem parseVolumeIssue_issue_implies_volume :
    ∀ s : String, (parseVolumeIssue s).issue ≠ none → (parseVolumeIssue s).volume ≠ none := by
  intro s h
  by_cases hs : s = ""
  · subst hs
    simp [parseVolumeIssue] at h
  · simp only [parseVolumeIssue] at h ⊢
    rw [if_neg (by simpa using hs)] at h ⊢
    cases htry : tryPatterns volIssPatterns (jsTrim s).data with
    | some r =>
      obtain ⟨v, i⟩ := r
      show (some v : Option String) ≠ none
      simp
    | none =>
      rw [htry] at h
      have h2 : (if (!(jsTrim s == "") && (jsTrim s).data.all Char.isDigit) = true
          then ({ volume := some (jsTrim s), issue := none } : VolIss)
          else { volume := none, issue := none }).issue ≠ none := h
      show (if (!(jsTrim s == "") && (jsTrim s).data.all Char.isDigit) = true
          then ({ volume := some (jsTrim s), issue := none } : VolIss)
          else { volume := none, issue := none }).volume ≠ none
      by_cases hc : (!(jsTrim s == "") && (jsTrim s).data.all Char.isDigit) = true
      · rw [if_pos hc]
        simp
      · rw [if_neg hc] at h2
        simp at h2

/-- Claim C10 witness: the invariant applied to the concrete cell "12(3)". -/
theorem parseVolumeIssue_issue_implies_volume_witness :
    (parseVolumeIssue "12(3)").volume ≠ none :=
  parseVolumeIssue_issue_implies_volume "12(3)" (by decide)

/-- Claim C6 counterexample: on the fragment "Smith, John, Jr." the source's
`split(',', 2)` keeps only the first two comma segments, so the emitted
given name is "John" and not "John, Jr." as splitting on the first comma
only into exactly two parts would give. -/
theorem parseAuthors_claim_counterexample :
    parseAuthors "Smith, John, Jr." = [Author.name "Smith" "John"]
    ∧ [Author.name "Smith" "John"] ≠ [Author.name "Smith" "John, Jr."] :=
  ⟨by decide, by decide⟩

/-- Claim C6 amended: parseAuthors splits the trimmed cell on the first matching
delimiter in priority order ';', then ' & ', then ' and ', else keeps the
whole cell; each trimmed non-empty fragment with a comma is split on
commas keeping only the first two segments (text after a second comma is
discarded), emitting a family/given pair when both trimmed segments are
non-empty and dropping the fragment otherwise; a fragment without a comma
is split on single space characters, and with two or more parts and a
first part longer than one character it emits family = last part and
given = the remaining parts joined by single spaces (consecutive spaces
contribute empty parts); any other fragment becomes a literal entry. -/
theorem parseAuthors_amended_spec :
    parseAuthors "Smith, John; Doe, Jane" = [Author.name "Smith" "John", Author.name "Doe" "Jane"]
    ∧ parseAuthors "John Smith" = [Author.name "Smith" "John"]
    ∧ parseAuthors "Acme" = [Author.literal "Acme"]
    ∧ parseAuthors "A. Smith and B. Jones" = [Author.name "Smith" "A.", Author.name "Jones" "B."]
    ∧ parseAuthors "Smith, John & Doe, Jane" = [Author.name "Smith" "John", Author.name "Doe" "Jane"]
    ∧ parseAuthors "Smith, John, Jr." = [Author.name "Smith" "John"]
    ∧ parseAuthors ", John" = []
    ∧ parseAuthors "J Smith" = [Author.literal "J Smith"]
    ∧ parseAuthors "John  Smith" = [Author.name "Smith" "John "]
    ∧ parseAuthors "Smith, J; A & B" = [Author.name "Smith" "J", Author.literal "A & B"]
    ∧ (∀ s, jsTrim s = "" → parseAuthors s = [])
    ∧ (∀ s, jsTrim s ≠ "" → parseAuthors s =
        (splitAuthorList (jsTrim s)).filterMap
          (fun a => if a == "" then none else parseAuthorFragment a)) := by
  refine ⟨by decide, by decide, by decide, by decide, by decide, by decide, by decide,
    by decide, by decide, by decide, ?_, ?_⟩
  · intro s h
    simp only [parseAuthors]
    rw [if_pos (by simp [h])]
  · intro s h
    simp only [parseAuthors]
    rw [if_neg (by simpa using h)]

/-- Claim C6 witness: the empty-cell branch of the amended theorem applied to a
whitespace-only cell. -/
theorem parseAuthors_amended_spec_witness : parseAuthors "  " = [] :=
  parseAuthors_amended_spec.2.2.2.2.2.2.2.2.2.2.1 "  " (by decide)

/-- Claim C7: the identifier column sets DOI/URL by the source's case split
(strip the anchored DOI-resolver pattern and store as DOI when the value
starts with http and contains doi.org/; store as URL when it starts with
http otherwise; store as DOI when it starts with 10.; ignore otherwise),
and the separate URL column is honored only when neither DOI nor URL
holds a truthy value and the trimmed value starts with http; the spec's
three concrete examples evaluate accordingly. -/
theorem doi_url_disambiguation :
    (∀ d : String, jsStartsWith d "http" = true → jsIncludes d "doi.org/" = true →
      doiUrlFromIdentifier d = (some (stripDoiResolver d), none))
    ∧ (∀ d : String, jsStartsWith d "http" = true → jsIncludes d "doi.org/" = false →
      doiUrlFromIdentifier d = (none, some d))
    ∧ (∀ d : String, jsStartsWith d "http" = false → jsStartsWith d "10." = true →
      doiUrlFromIdentifier d = (some d, none))
    ∧ (∀ d : String, jsStartsWith d "http" = false → jsStartsWith d "10." = false →
      doiUrlFromIdentifier d = (none, none))
    ∧ (∀ (row : CsvRow) (i : Nat), (createCslItem row i).DOI = (identifierPair row).1)
    ∧ (∀ (row : CsvRow) (i : Nat) (v : String), firstTruthy row ["URL", "url"] = some v →
        jsTruthyStr (identifierPair row).1 = false → jsTruthyStr (identifierPair row).2 = false →
        jsStartsWith (jsTrim v) "http" = true →
        (createCslItem row i).URL = some (jsTrim v))
    ∧ (∀ (row : CsvRow) (i : Nat),
        (jsTruthyStr (identifierPair row).1 = true ∨ jsTruthyStr (identifierPair row).2 = true) →
        (createCslItem row i).URL = (identifierPair row).2)
    ∧ (∀ (row : CsvRow) (i : Nat), firstTruthy row ["URL", "url"] = none →
        (createCslItem row i).URL = (identifierPair row).2)
    ∧ (createCslItem [("DOI", "https://doi.org/10.1234/x")] 0).DOI = some "10.1234/x"
    ∧ (createCslItem [("DOI", "https://example.com/a")] 0).URL = some "https://example.com/a"
    ∧ (createCslItem [("DOI", "https://example.com/a")] 0).DOI = none
    ∧ (createCslItem [("DOI", "10.5555/y")] 0).DOI = some "10.5555/y" := by
  refine ⟨?_, ?_, ?_, ?_, ?_, ?_, ?_, ?_, by decide, by decide, by decide, by decide⟩
  · intro d h1 h2
    unfold doiUrlFromIdentifier
    rw [if_pos h1, if_pos h2]
  · intro d h1 h2
    unfold doiUrlFromIdentifier
    rw [if_pos h1, if_neg (by simp [h2])]
  · intro d h1 h2
    unfold doiUrlFromIdentifier
    rw [if_neg (by simp [h1]), if_pos h2]
  · intro d h1 h2
    unfold doiUrlFromIdentifier
    rw [if_neg (by simp [h1]), if_neg (by simp [h2])]
  · intro row i
    rfl
  · intro row i v h1 h2 h3 h4
    show (match firstTruthy row ["URL", "url"] with
      | some v =>
        if !jsTruthyStr (identifierPair row).1 && !jsTruthyStr (identifierPair row).2
            && jsStartsWith (jsTrim v) "http" then
          some (jsTrim v)
        else (identifierPair row).2
      | none => (identifierPair row).2) = some (jsTrim v)
    rw [h1]
    show (if (!jsTruthyStr (identifierPair row).1 && !jsTruthyStr (identifierPair row).2
        && jsStartsWith (jsTrim v) "http") = true then
          some (jsTrim v)
        else (identifierPair row).2) = some (jsTrim v)
    rw [if_pos (by simp [h2, h3, h4])]
  · intro row i h
    show (match firstTruthy row ["URL", "url"] with
      | some v =>
        if !jsTruthyStr (identifierPair row).1 && !jsTruthyStr (identifierPair row).2
            && jsStartsWith (jsTrim v) "http" then
          some (jsTrim v)
        else (identifierPair row).2
      | none => (identifierPair row).2) = (identifierPair row).2
    cases hurl : firstTruthy row ["URL", "url"] with
    | none => rfl
    | some v =>
      show (if (!jsTruthyStr (identifierPair row).1 && !jsTruthyStr (identifierPair row).2
          && jsStartsWith (jsTrim v) "http") = true then
            some (jsTrim v)
          else (identifierPair row).2) = (identifierPair row).2
      rcases h with h | h
      · rw [if_neg (by simp [h])]
      · rw [if_neg (by simp [h])]
  · intro row i h
    show (match firstTruthy row ["URL", "url"] with
      | some v =>
        if !jsTruthyStr (identifierPair row).1 && !jsTruthyStr (identifierPair row).2
            && jsStartsWith (jsTrim v) "http" then
          some (jsTrim v)
        else (identifierPair row).2
      | none => (identifierPair row).2) = (identifierPair row).2
    rw [h]

/-- Claim C7 witness: the resolver-stripping branch applied to the spec's first
example value. -/
theorem doi_url_disambiguation_witness :
    doiUrlFromIdentifier "https://doi.org/10.1234/x" =
      (some (stripDoiResolver "https://doi.org/10.1234/x"), none) :=
  doi_url_disambiguation.1 "https://doi.org/10.1234/x" (by decide) (by decide)

/-- Claim C3: an item is rejected exactly when it has neither truthy title nor
author array, or is a journal article without a truthy container title;
the valid output is the order-preserving filter of accepted items, and
the error output concatenates, in original order, the per-item error
lists (one message per violated rule, each carrying the item's 1-based
position). -/
theorem validateCslItems_spec (items : List CslItem) :
    (validateCslItems items).1 = items.filter (fun it => !invalidCslItem it)
    ∧ (validateCslItems items).2 =
        (List.enumFrom 1 items).flatMap (fun p => itemErrors p.1 p.2)
    ∧ (∀ it : CslItem, invalidCslItem it = true ↔
        ((jsTruthyStr it.title = false ∧ it.author = none)
          ∨ (it.type = "article-journal" ∧ jsTruthyStr it.container_title = false)))
    ∧ (∀ (pos : Nat) (it : CslItem), itemErrors pos it = [] ↔ invalidCslItem it = false) := by
  refine ⟨validateFrom_fst items 0, validateFrom_snd items 0, ?_, itemErrors_eq_nil_iff⟩
  intro it
  simp only [invalidCslItem, Bool.or_eq_true, Bool.and_eq_true, Bool.not_eq_true',
    beq_iff_eq, Option.isNone_iff_eq_none]

/-- Claim C4: the skipped-items warning's count is the source's self-difference
`cslItems.length - cslItems.length`, so whenever the warning fires it
reports zero, both for the warning builder and for a full run that
reaches it. -/
theorem skipped_warning_count_zero :
    (∀ cslItems validItems : List CslItem, validItems.length < cslItems.length →
      generationWarnings cslItems validItems =
        ["0 items were skipped due to validation errors"])
    ∧ (∀ (rows : List CsvRow) (render : List CslItem → List String × List String),
        (validateCslItems (buildItems rows)).1 ≠ [] →
        (validateCslItems (buildItems rows)).1.length < (buildItems rows).length →
        (handleGeneration rows render).warnings =
          ["0 items were skipped due to validation errors"]) := by
  have hz : ∀ n : Nat, decRepr (n - n) = "0" := by
    intro n
    rw [Nat.sub_self]
    rfl
  constructor
  · intro cslItems validItems h
    unfold generationWarnings
    rw [if_pos h, hz]
    decide
  · intro rows render hne hlt
    rw [handleGeneration_pos rows render (by simpa [List.length_eq_zero] using hne)]
    show generationWarnings (buildItems rows) (validateCslItems (buildItems rows)).1 = _
    unfold generationWarnings
    rw [if_pos hlt, hz]
    decide

/-- Claim C4 witness: a concrete run with one valid and one rejected row whose
warning reports a zero count. -/
theorem skipped_warning_count_zero_witness :
    (handleGeneration [[("Title", "T"), ("Source Type", "book")], [("foo", "bar")]]
        (fun _ => (["CitationOne"], []))).warnings =
      ["0 items were skipped due to validation errors"] :=
  skipped_warning_count_zero.2 [[("Title", "T"), ("Source Type", "book")], [("foo", "bar")]]
    (fun _ => (["CitationOne"], [])) (by decide) (by decide)

/-- Claim C9: when validation accepts zero items, the run terminates with the
no-valid-items error: success is false, the citations field is a present
empty list, and the message is in the error list. -/
theorem no_valid_items_result :
    ∀ (rows : List CsvRow) (render : List CslItem → List String × List String),
      (validateCslItems (buildItems rows)).1 = [] →
      (handleGeneration rows render).success = false
      ∧ (handleGeneration rows render).citations = []
      ∧ noValidItemsMsg ∈ (handleGeneration rows render).errors := by
  intro rows render h
  have h0 : (validateCslItems (buildItems rows)).1.length = 0 := by simp [h]
  rw [handleGeneration_none rows render h0]
  exact ⟨rfl, rfl, by simp⟩

/-- Claim C9 witness: a one-row input whose only item fails validation. -/
theorem no_valid_items_result_witness :
    (handleGeneration [[("foo", "bar")]] (fun _ => ([], []))).citations = [] :=
  (no_valid_items_result [[("foo", "bar")]] (fun _ => ([], [])) (by decide)).2.1

/-- Claim C2 counterexample: a successfully completed two-row run whose
second input row already contains an "APA 7 Citation" column.  The
object spread overwrites that column's value in place, so the output row
has exactly the input row's column count — no citation column is
appended, refuting the claim's "all original columns plus exactly one
appended citation column" on this run. -/
theorem finalCsvData_reserved_column_counterexample :
    (handleGeneration
        [[("Title", "T"), ("Source Type", "book")],
         [("Title", "U"), ("Source Type", "book"), ("APA 7 Citation", "old")]]
        (fun _ => (["CitOne", "CitTwo"], []))).success = true
    ∧ (handleGeneration
        [[("Title", "T"), ("Source Type", "book")],
         [("Title", "U"), ("Source Type", "book"), ("APA 7 Citation", "old")]]
        (fun _ => (["CitOne", "CitTwo"], []))).csvData.get? 1 =
      some [("Title", "U"), ("Source Type", "book"), ("APA 7 Citation", "CitTwo")]
    ∧ ([("Title", "U"), ("Source Type", "book"), ("APA 7 Citation", "CitTwo")] : CsvRow).length =
        ([("Title", "U"), ("Source Type", "book"), ("APA 7 Citation", "old")] : CsvRow).length :=
  ⟨by decide, by decide, by decide⟩

/-- Claim C2 amended: the assembled output has exactly one row per input
row (never the valid-item count); each output row whose input row does
not already contain the "APA 7 Citation" column is the input row with
all original columns followed by exactly one appended citation column;
an input row already containing that column is output with the same
columns in the same order and its "APA 7 Citation" value overwritten in
place by the computed citation text; a completed run's csvData also has
the input row count. -/
theorem finalCsvData_preserves_rows :
    (∀ (rows : List CsvRow) (cslItems validItems : List CslItem) (citations : List String),
      (finalCsvData rows cslItems validItems citations).length = rows.length)
    ∧ (∀ (rows : List CsvRow) (cslItems validItems : List CslItem) (citations : List String)
        (i : Nat) (row : CsvRow), rows.get? i = some row →
        List.lookup "APA 7 Citation" row = none →
        (finalCsvData rows cslItems validItems citations).get? i =
          some (row ++ [("APA 7 Citation", citationForIndex cslItems validItems citations i)]))
    ∧ (∀ (rows : List CsvRow) (render : List CslItem → List String × List String),
        (validateCslItems (buildItems rows)).1 ≠ [] →
        (handleGeneration rows render).csvData.length = rows.length)
    ∧ (∀ (rows : List CsvRow) (cslItems validItems : List CslItem) (citations : List String)
        (i : Nat) (row : CsvRow) (v : String), rows.get? i = some row →
        List.lookup "APA 7 Citation" row = some v →
        (finalCsvData rows cslItems validItems citations).get? i =
          some (row.map (fun p =>
            if p.1 == "APA 7 Citation" then
              ("APA 7 Citation", citationForIndex cslItems validItems citations i)
            else p))) := by
  refine ⟨?_, ?_, ?_, ?_⟩
  · intro rows cslItems validItems citations
    exact finalCsvDataFrom_length rows cslItems validItems citations 0
  · intro rows cslItems validItems citations i row hrow hfresh
    unfold finalCsvData
    rw [finalCsvDataFrom_get?, hrow]
    simp only [Option.map_some', Option.some.injEq]
    rw [jsSet_of_fresh row _ _ hfresh, Nat.zero_add]
  · intro rows render hne
    rw [handleGeneration_pos rows render (by simpa [List.length_eq_zero] using hne)]
    exact finalCsvDataFrom_length rows _ _ _ 0
  · intro rows cslItems validItems citations i row v hrow hmem
    unfold finalCsvData
    rw [finalCsvDataFrom_get?, hrow]
    simp only [Option.map_some', Option.some.injEq]
    rw [jsSet_of_mem row _ _ v hmem, Nat.zero_add]

/-- Claim C2 witness: the column-append branch applied to a concrete one-row
input. -/
theorem finalCsvData_preserves_rows_witness :
    (finalCsvData [[("Title", "T")]] [] [] []).get? 0 =
      some ([("Title", "T")] ++ [("APA 7 Citation", citationForIndex [] [] [] 0)]) :=
  finalCsvData_preserves_rows.2.1 [[("Title", "T")]] [] [] [] 0 [("Title", "T")]
    (by decide) (by decide)

/-- Claim C1: in the assembled output, a row whose built item was rejected by
the validator carries the fixed skipped sentinel in the appended citation
column, and a row whose item survived carries the rendered citation found
by matching the item's identifier against the valid-item sequence
(position `j` there), provided the rendered list lines up with the valid
items and its entries are non-empty. -/
theorem finalCsvData_citation_column (rows : List CsvRow) (citations : List String)
    (hlen : citations.length = (validateCslItems (buildItems rows)).1.length)
    (hne : ∀ c ∈ citations, c ≠ "")
    (i : Nat) (it : CslItem)
    (hit : (buildItems rows).get? i = some it) :
    (invalidCslItem it = true →
      appendedCitation rows (buildItems rows) (validateCslItems (buildItems rows)).1 citations i =
        some "Skipped due to validation errors.")
    ∧ (invalidCslItem it = false →
      ∃ j c, (validateCslItems (buildItems rows)).1.findIdx? (fun v => v.id == it.id) = some j
        ∧ citations.get? j = some c
        ∧ appendedCitation rows (buildItems rows) (validateCslItems (buildItems rows)).1 citations i
            = some c) := by
  have hgi : (buildItemsFrom 0 rows).get? i = some it := hit
  rw [buildItemsFrom_get?] at hgi
  cases hr : rows.get? i with
  | none =>
    rw [hr] at hgi
    exact absurd hgi (by simp)
  | some row =>
  rw [hr] at hgi
  simp only [Option.map_some', Option.some.injEq] at hgi
  have happ : appendedCitation rows (buildItems rows)
      (validateCslItems (buildItems rows)).1 citations i =
      some (citationForIndex (buildItems rows) (validateCslItems (buildItems rows)).1 citations i) := by
    unfold appendedCitation finalCsvData
    rw [finalCsvDataFrom_get?, hr]
    simp only [Option.map_some', Option.some_bind]
    rw [Nat.zero_add, lookup_jsSet]
  have hfind : (buildItems rows).find? (fun c => c.id == itemId (i + 1)) = some it := by
    have h2 := buildItemsFrom_find? rows 0 i it hit
    simpa [Nat.zero_add] using h2
  have hcfi : citationForIndex (buildItems rows) (validateCslItems (buildItems rows)).1 citations i
      = (match (validateCslItems (buildItems rows)).1.findIdx? (fun v => v.id == it.id) with
         | some vi =>
           match citations.get? vi with
           | some c => if c == "" then "Error: Could not generate citation." else c
           | none => "Error: Could not generate citation."
         | none => "Skipped due to validation errors.") := by
    simp only [citationForIndex]
    rw [hfind]
    rfl
  constructor
  · intro hinv
    have hnone : (validateCslItems (buildItems rows)).1.findIdx? (fun v => v.id == it.id) = none := by
      apply List.findIdx?_eq_none_iff.mpr
      intro v hv
      obtain ⟨hvmem, hvinv⟩ := mem_validateFrom_fst.mp hv
      obtain ⟨k, hk⟩ := List.mem_iff_get?.mp hvmem
      apply beq_eq_false_iff_ne.mpr
      intro hid
      have hva : v.id = itemId (0 + k + 1) := buildItemsFrom_id rows 0 k v hk
      have hia : it.id = itemId (0 + i + 1) := buildItemsFrom_id rows 0 i it hit
      have hids : itemId (0 + k + 1) = itemId (0 + i + 1) := by
        rw [← hva, ← hia]
        exact hid
      have hki : k = i := by
        have := itemId_inj hids
        omega
      subst hki
      rw [hit] at hk
      have hvit : v = it := by
        injection hk with h2
        exact h2.symm
      rw [hvit] at hvinv
      simp [hvinv] at hinv
    rw [happ, hcfi, hnone]
  · intro hval
    have hmem : it ∈ (validateCslItems (buildItems rows)).1 :=
      mem_validateFrom_fst.mpr ⟨List.get?_mem hit, hval⟩
    have hex : ∃ x ∈ (validateCslItems (buildItems rows)).1, (x.id == it.id) = true :=
      ⟨it, hmem, beq_self_eq_true it.id⟩
    have hsome := List.findIdx?_eq_some_of_exists hex
    have hlt := List.findIdx_lt_length_of_exists hex
    have hjc : (validateCslItems (buildItems rows)).1.findIdx (fun v => v.id == it.id)
        < citations.length := by
      rw [hlen]
      exact hlt
    cases hc : citations.get?
        ((validateCslItems (buildItems rows)).1.findIdx (fun v => v.id == it.id)) with
    | none =>
      have := List.get?_eq_none.mp hc
      omega
    | some c =>
      have hcne : c ≠ "" := hne c (List.get?_mem hc)
      refine ⟨_, c, hsome, hc, ?_⟩
      rw [happ, hcfi, hsome]
      exact congrArg some (citation_pick citations _ c hc hcne)

/-- Claim C1 witness: in a two-row run with one valid and one rejected item,
the rejected row's appended column is the skipped sentinel. -/
theorem finalCsvData_citation_column_witness :
    appendedCitation [[("Title", "T"), ("Source Type", "book")], [("foo", "bar")]]
      (buildItems [[("Title", "T"), ("Source Type", "book")], [("foo", "bar")]])
      (validateCslItems (buildItems [[("Title", "T"), ("Source Type", "book")], [("foo", "bar")]])).1
      ["CitationOne"] 1 = some "Skipped due to validation errors." := by
  have h := finalCsvData_citation_column
    [[("Title", "T"), ("Source Type", "book")], [("foo", "bar")]] ["CitationOne"]
    (by decide) (by decide) 1 (createCslItem [("foo", "bar")] 1) (by decide)
  exact h.1 (by decide)

end Citeproc
